import Mathlib

/-!
# Verification of the runner-rs code-execution service

Shallow embedding of `src/main.rs` and `src/tmpdir.rs` of the
hexlet-codebattle/runner-rs repository.  The HTTP handler `run` is modelled
as a pure function from a `Payload` and an `Env` — the outcomes of every
external operation the handler performs (filesystem calls, spawning, the
child's behaviour) — to an `Outcome` together with the ordered trace of
side effects the handler issued.  The PID-1 reaper `ashy_slashy` is
modelled as a fold over the stream of received signals paired with the
result of the `wait()` call that follows each one.
-/

namespace Runner

/-- The `Lang` enum of `main.rs` (lines 55-73).  Fifteen variants;
serde's `rename_all = "lowercase"` makes the accepted JSON tags the
lowercased variant names. -/
inductive Lang
  | Clojure | Cpp | Csharp | Dart | Elixir | Golang | Haskell | Java
  | Js | Kotlin | Php | Python | Ruby | Rust | Ts
  deriving DecidableEq, Repr

/-- The request payload (`Payload`, main.rs lines 75-82). -/
structure Payload where
  timeout : Option String
  solution_text : String
  lang_slug : Lang
  asserts : Option String
  checker_text : Option String

/-- The response body (`Response`, main.rs lines 84-89).  `exit_code` is
`none` when the child was killed by a signal (Rust `ExitStatus::code`). -/
structure Response where
  exit_code : Option Int
  stdout : String
  stderr : String
  deriving DecidableEq, Repr

/-- The tag table serde derives for `Lang` under
`rename_all = "lowercase"` (main.rs lines 55-73): one entry per variant,
keyed by the lowercased variant name. -/
def slugTable : List (String × Lang) :=
  [("clojure", .Clojure), ("cpp", .Cpp), ("csharp", .Csharp), ("dart", .Dart),
   ("elixir", .Elixir), ("golang", .Golang), ("haskell", .Haskell),
   ("java", .Java), ("js", .Js), ("kotlin", .Kotlin), ("php", .Php),
   ("python", .Python), ("ruby", .Ruby), ("rust", .Rust), ("ts", .Ts)]

/-- Deserialization of the `lang_slug` JSON tag: serde external tagging
accepts exactly the tags of `slugTable`, producing the matching
variant. -/
def langOfSlug (s : String) : Option Lang :=
  (slugTable.find? (fun q => q.1 == s)).map Prod.snd

/-- The `matches!` guard of main.rs lines 158-168: languages for which
`checker_text` is demanded before anything else happens. -/
def checkerRequired : Lang → Bool
  | .Cpp | .Csharp | .Dart | .Java | .Golang | .Haskell | .Kotlin | .Rust => true
  | _ => false

/-- The solution filename chosen in the per-language `match` of
main.rs lines 208-394. -/
def solutionFilename : Lang → String
  | .Clojure => "solution.clj"
  | .Cpp => "solution.cpp"
  | .Csharp => "Solution.cs"
  | .Dart => "solution.dart"
  | .Elixir => "solution.exs"
  | .Golang => "solution.go"
  | .Haskell => "Solution.hs"
  | .Java => "Solution.java"
  | .Js => "solution.js"
  | .Ts => "solution.ts"
  | .Kotlin => "solution.kt"
  | .Php => "solution.php"
  | .Python => "solution.py"
  | .Ruby => "solution.rb"
  | .Rust => "solution.rs"

/-- The sources subdirectory, main.rs lines 186-190: `lib` for Dart,
`check` otherwise. -/
def checkSubdir : Lang → String
  | .Dart => "lib"
  | _ => "check"

/-- Configuration of a standard stream of a `std::process::Command`. -/
inductive StdioCfg
  | inherit | nullDev | piped
  deriving DecidableEq, Repr

/-- A step registered to run in the child between fork and exec
(`CommandExt::pre_exec`). `main.rs` registers none; the constructors are
here so that the specification's jail-spawn property can be stated about
the built command. -/
inductive PreExecStep
  | unshareMountNet
  | chrootTo (path : String)
  | chdir (path : String)
  deriving DecidableEq, Repr

/-- The observable state of the `std::process::Command` builder at the
moment of `spawn`. Fields not set by the builder keep their Rust
defaults (`inherit` stdio, no process group, no pre-exec hooks, no
working-directory override). -/
structure CommandSpec where
  program : String
  args : List String
  stdinCfg : StdioCfg
  stdoutCfg : StdioCfg
  stderrCfg : StdioCfg
  processGroup : Option Nat
  preExec : List PreExecStep
  currentDir : Option String
  deriving DecidableEq, Repr

/-- The command built by `run` at main.rs lines 405-413:
`make --silent -C <tmp> test`, null stdin, piped stdout and stderr,
`process_group(0)`, and nothing else. -/
def makeCommand (tmpPath : String) : CommandSpec :=
  { program := "make"
    args := ["--silent", "-C", tmpPath, "test"]
    stdinCfg := .nullDev
    stdoutCfg := .piped
    stderrCfg := .piped
    processGroup := some 0
    preExec := []
    currentDir := none }

/-- Side effects the handler issues, in program order.  A recorded
filesystem effect is the operation the code requested; when the
corresponding `Env` result is a failure the operation is the last one
recorded. -/
inductive Effect
  | createDir (path : String)
  | symlink (src dst : String)
  | copyFile (src dst : String)
  | writeFile (path contents : String)
  | spawn (cmd : CommandSpec)
  | killpg (pid : Nat)
  deriving DecidableEq, Repr

/-- Outcome of one `/run` request. `panic` is an `unwrap` firing inside
the handler (no HTTP response with the handler's body is produced);
`processExit` is `std::process::exit`, which takes down the whole
service. -/
inductive Outcome
  | ok (r : Response)
  | httpError (status : Nat) (body : String)
  | panic
  | processExit (code : Nat)
  deriving DecidableEq, Repr

/-- Results of every external operation the handler performs: the
"world" one request runs against.  Per-path Bool functions give the
success of each filesystem call on the path it targets. -/
structure Env where
  /-- Result of `duration_str::parse` (external crate): `none` models a parse error. -/
  parseDuration : String → Option Nat
  /-- the UUID generated by `TmpDir::new` (main.rs line 37) -/
  tmpUuid : String
  /-- success of `fs::create_dir` at a given path -/
  createDirOk : String → Bool
  /-- result of `std::env::current_dir()` -/
  currentDirOpt : Option String
  /-- success of `unix::fs::symlink` keyed by destination path -/
  symlinkOk : String → Bool
  /-- success of `fs::write` at a given path -/
  writeOk : String → Bool
  /-- success of `fs::copy` keyed by destination path -/
  copyOk : String → Bool
  /-- success of `Command::spawn` -/
  spawnOk : Bool
  /-- whether `child.wait()` resolves before the wall-clock timeout -/
  childExitsInTime : Bool
  /-- result of `child.id()` in the timeout branch (main.rs line 422) -/
  childIdOpt : Option Nat
  /-- success of `signal::killpg` (main.rs line 423) -/
  killpgOk : Bool
  /-- success of the resolved `child.wait()` (main.rs lines 430-433) -/
  waitOk : Bool
  /-- Value of `ExitStatus::code()` of the child: `none` if signal-killed -/
  childExitCode : Option Int
  /-- the child's complete stdout as drained by `read_stdio` -/
  childStdout : String
  /-- the child's complete stderr as drained by `read_stdio` -/
  childStderr : String
  /-- success of joining the stdout drainer task (no `JoinError`) -/
  stdoutJoinOk : Bool
  /-- success of `read_to_string` on the stdout pipe -/
  stdoutReadOk : Bool
  /-- status and body actix renders for a failed stdout read -/
  stdoutErrStatus : Nat
  stdoutErrBody : String
  /-- success of joining the stderr drainer task -/
  stderrJoinOk : Bool
  /-- success of `read_to_string` on the stderr pipe -/
  stderrReadOk : Bool
  /-- status and body actix renders for a failed stderr read -/
  stderrErrStatus : Nat
  stderrErrBody : String

/-- The `DEFAULT_TIMEOUT` constant (main.rs line 27), in milliseconds. -/
def DEFAULT_TIMEOUT : Nat := 30000

/-- The timeout computation of main.rs lines 150-156: parse the optional
string, defaulting to 30 s; `none` is the `400 wrong timeout format`
path. -/
def parsedTimeout (env : Env) (p : Payload) : Option Nat :=
  match p.timeout with
  | some t => env.parseDuration t
  | none => some DEFAULT_TIMEOUT

/-- The base directory created by `TmpDir::new` (main.rs lines 35-40). -/
def tmpPath (env : Env) : String := "/tmp/" ++ env.tmpUuid

/-- The `make_symlinks` helper (main.rs lines 91-100): symlink each file from `src`
into `dst`, stopping at the first failure.  Returns the attempted
operations in order and whether all succeeded. -/
def makeSymlinks (env : Env) (src dst : String) : List String → List Effect × Bool
  | [] => ([], true)
  | f :: fs =>
    if env.symlinkOk (dst ++ "/" ++ f) then
      let r := makeSymlinks env src dst fs
      (Effect.symlink (src ++ "/" ++ f) (dst ++ "/" ++ f) :: r.1, r.2)
    else
      ([Effect.symlink (src ++ "/" ++ f) (dst ++ "/" ++ f)], false)

/-- Result of the per-language materialization arm. -/
inductive MatResult
  | ok
  /-- an I/O error mapped to `500 internal error` -/
  | err
  /-- the `payload.checker_text.as_ref().unwrap()` fired on `None` -/
  | panicked
  deriving DecidableEq, Repr

/-- Write the checker text at `path`: models the
`fs::write(path, payload.checker_text.as_ref().unwrap())` pattern of the
compiled-language arms. -/
def writeChecker (env : Env) (path : String) (checker : Option String) :
    List Effect × MatResult :=
  match checker with
  | none => ([], .panicked)
  | some t =>
    ([Effect.writeFile path t], if env.writeOk path then .ok else .err)

/-- The per-language `match` of main.rs lines 207-394, without the final
solution write: the support-file symlinks or copies and the checker
write each arm performs. -/
def langMaterialize (env : Env) (cwd tmp check : String) (p : Payload) :
    List Effect × MatResult :=
  match p.lang_slug with
  | .Clojure =>
    let r := makeSymlinks env cwd tmp ["checker.clj"]
    (r.1, if r.2 then .ok else .err)
  | .Cpp =>
    let r := makeSymlinks env cwd tmp ["json.hpp", "fifo_map.hpp", "check/checker.hpp.gch"]
    if r.2 then
      let w := writeChecker env (check ++ "/" ++ "checker.cpp") p.checker_text
      (r.1 ++ w.1, w.2)
    else (r.1, .err)
  | .Csharp =>
    let r := makeSymlinks env cwd tmp ["Program.cs", "app.csproj", "obj"]
    if r.2 then
      let w := writeChecker env (check ++ "/" ++ "Checker.cs") p.checker_text
      (r.1 ++ w.1, w.2)
    else (r.1, .err)
  | .Dart =>
    let r := makeSymlinks env cwd tmp ["pubspec.yml", "pubspec.lock", ".dart_tool"]
    if r.2 then
      let w := writeChecker env (check ++ "/" ++ "checker.dart") p.checker_text
      (r.1 ++ w.1, w.2)
    else (r.1, .err)
  | .Elixir =>
    ([Effect.copyFile (cwd ++ "/checker") (tmp ++ "/checker")],
     if env.copyOk (tmp ++ "/checker") then .ok else .err)
  | .Golang =>
    writeChecker env (check ++ "/" ++ "checker.go") p.checker_text
  | .Haskell =>
    let r := makeSymlinks env cwd tmp ["checker.cabal"]
    if r.2 then
      let w := writeChecker env (check ++ "/" ++ "Checker.hs") p.checker_text
      (r.1 ++ w.1, w.2)
    else (r.1, .err)
  | .Java =>
    let r := makeSymlinks env cwd tmp ["gson.jar"]
    if r.2 then
      let w := writeChecker env (check ++ "/" ++ "Checker.java") p.checker_text
      (r.1 ++ w.1, w.2)
    else (r.1, .err)
  | .Js =>
    ([Effect.copyFile (cwd ++ "/checker.js") (tmp ++ "/checker.js")],
     if env.copyOk (tmp ++ "/checker.js") then .ok else .err)
  | .Ts =>
    ([Effect.copyFile (cwd ++ "/checker.js") (tmp ++ "/checker.js")],
     if env.copyOk (tmp ++ "/checker.js") then .ok else .err)
  | .Kotlin =>
    let r := makeSymlinks env cwd tmp ["gson.jar"]
    if r.2 then
      let w := writeChecker env (check ++ "/" ++ "checker.kt") p.checker_text
      (r.1 ++ w.1, w.2)
    else (r.1, .err)
  | .Php =>
    ([Effect.copyFile (cwd ++ "/checker.php") (tmp ++ "/checker.php")],
     if env.copyOk (tmp ++ "/checker.php") then .ok else .err)
  | .Python =>
    ([Effect.copyFile (cwd ++ "/checker.py") (tmp ++ "/checker.py")],
     if env.copyOk (tmp ++ "/checker.py") then .ok else .err)
  | .Ruby =>
    ([Effect.copyFile (cwd ++ "/checker.rb") (tmp ++ "/checker.rb")],
     if env.copyOk (tmp ++ "/checker.rb") then .ok else .err)
  | .Rust =>
    let r := makeSymlinks env cwd tmp ["Cargo.toml", "Cargo.lock", "target"]
    if r.2 then
      let w := writeChecker env (check ++ "/" ++ "checker.rs") p.checker_text
      (r.1 ++ w.1, w.2)
    else (r.1, .err)

/-- Everything `run` does before the spawn, main.rs lines 150-403:
timeout parse, checker guard, `TmpDir::new`, `current_dir`, check-dir
creation, Makefile symlink, optional asserts write, per-language
materialization, and the solution write.  `Except.error` carries the
handler's early outcome together with the effect trace so far. -/
def setupPhase (env : Env) (p : Payload) :
    Except (Outcome × List Effect) (List Effect) :=
  match parsedTimeout env p with
  | none => .error (.httpError 400 "wrong timeout format", [])
  | some _ =>
    if checkerRequired p.lang_slug && p.checker_text.isNone then
      .error (.httpError 400 "checker_text is required", [])
    else
      let tmp := tmpPath env
      if !env.createDirOk tmp then
        .error (.httpError 500 "internal error", [.createDir tmp])
      else
        match env.currentDirOpt with
        | none => .error (.httpError 500 "internal error", [.createDir tmp])
        | some cwd =>
          let check := tmp ++ "/" ++ checkSubdir p.lang_slug
          let tr1 : List Effect := [.createDir tmp, .createDir check]
          if !env.createDirOk check then
            .error (.httpError 500 "internal error", tr1)
          else
            let tr2 := tr1 ++ [Effect.symlink (cwd ++ "/Makefile") (tmp ++ "/Makefile")]
            if !env.symlinkOk (tmp ++ "/Makefile") then
              .error (.httpError 500 "internal error", tr2)
            else
              let aw : List Effect :=
                match p.asserts with
                | some a => [.writeFile (check ++ "/asserts.json") a]
                | none => []
              let assertsOk :=
                match p.asserts with
                | some _ => env.writeOk (check ++ "/asserts.json")
                | none => true
              let tr3 := tr2 ++ aw
              if !assertsOk then
                .error (.httpError 500 "internal error", tr3)
              else
                let m := langMaterialize env cwd tmp check p
                let tr4 := tr3 ++ m.1
                match m.2 with
                | .panicked => .error (.panic, tr4)
                | .err => .error (.httpError 500 "internal error", tr4)
                | .ok =>
                  let solPath := check ++ "/" ++ solutionFilename p.lang_slug
                  let tr5 := tr4 ++ [Effect.writeFile solPath p.solution_text]
                  if !env.writeOk solPath then
                    .error (.httpError 500 "internal error", tr5)
                  else
                    .ok tr5

/-- The spawn and supervision of main.rs lines 405-450: spawn the `make`
command (`unwrap` panics on spawn failure), race `child.wait()` against
the timeout, on expiry `killpg` the group (exit(1) if the kill fails,
else `408 timelimit exceeded`), otherwise surface wait errors, join the
two drainers, and build the response. -/
def supervisePhase (env : Env) (tr : List Effect) : Outcome × List Effect :=
  let cmd := makeCommand (tmpPath env)
  let tr := tr ++ [Effect.spawn cmd]
  if !env.spawnOk then (.panic, tr)
  else if !env.childExitsInTime then
    match env.childIdOpt with
    | none => (.panic, tr)
    | some pid =>
      let tr := tr ++ [Effect.killpg pid]
      if !env.killpgOk then (.processExit 1, tr)
      else (.httpError 408 "timelimit exceeded", tr)
  else if !env.waitOk then (.httpError 500 "internal error", tr)
  else if !env.stdoutJoinOk then (.httpError 500 "internal error", tr)
  else if !env.stdoutReadOk then (.httpError env.stdoutErrStatus env.stdoutErrBody, tr)
  else if !env.stderrJoinOk then (.httpError 500 "internal error", tr)
  else if !env.stderrReadOk then (.httpError env.stderrErrStatus env.stderrErrBody, tr)
  else
    (.ok { exit_code := env.childExitCode
           stdout := env.childStdout
           stderr := env.childStderr }, tr)

/-- The complete `/run` handler (main.rs lines 147-451). -/
def runHandler (env : Env) (p : Payload) : Outcome × List Effect :=
  match setupPhase env p with
  | .error out => out
  | .ok tr => supervisePhase env tr

/-! ## Destructors of the two `TmpDir` types -/

/-- A side effect of a `TmpDir` destructor. -/
inductive DropEffect
  | umount (path : String)
  | removeDirAll (path : String)
  deriving DecidableEq, Repr

/-- The `Drop for TmpDir` impl in main.rs lines 47-53 — the `TmpDir` the `/run`
handler actually uses.  It only removes the base directory recursively;
a failure is logged (the returned message list) and never propagated:
the function is total and returns no error. -/
def mainTmpDirDrop (path : String) (removeOk : Bool) :
    List DropEffect × List String :=
  ([.removeDirAll path], if removeOk then [] else ["remove tmp dir"])

/-- The `Drop for TmpDir` impl in tmpdir.rs lines 86-102 — the overlay-jail
`TmpDir`, which no code in main.rs imports or uses.  It unmounts
`<chroot>/proc`, unmounts `<chroot>`, then removes the base directory,
each failure logged and never propagated. -/
def overlayTmpDirDrop (base chroot : String)
    (umountProcOk umountOk removeOk : Bool) :
    List DropEffect × List String :=
  ([.umount (chroot ++ "/proc"), .umount chroot, .removeDirAll base],
   (if umountProcOk then [] else ["umount proc"]) ++
   (if umountOk then [] else ["umount chroot overlay"]) ++
   (if removeOk then [] else ["remove tmp dir"]))

/-! ## The PID-1 reaper (`ashy_slashy`, main.rs lines 102-139) -/

/-- A signal delivered to the reaper's stream (it registers `SIGCHLD`,
`SIGINT`, `SIGTERM`; main.rs line 469). -/
inductive Sig
  | chld | int | term
  deriving DecidableEq, Repr

/-- Result of the `nix::sys::wait::wait()` call the reaper makes after
each signal (main.rs lines 118-128). `other` is any `WaitStatus` that is
neither `Exited` nor `Signaled`. -/
inductive WaitRes
  | err
  | exited (pid : Nat) (status : Nat)
  | signaled (pid : Nat) (signo : Nat)
  | other
  deriving DecidableEq, Repr

/-- One iteration's inputs: the signal received and what `wait()`
returned after it. -/
structure SigEvent where
  sig : Sig
  waitResult : WaitRes
  deriving DecidableEq, Repr

/-- One action of the escalation thread spawned at main.rs lines 106-116. -/
inductive EscAct
  | kill (sig : Sig)
  | killK
  | sleepSecs (n : Nat)
  deriving DecidableEq, Repr

/-- The escalation thread's body (main.rs lines 106-116): in the SIGINT
case first SIGINT then 2 s; then SIGTERM, 2 s, SIGKILL. -/
def escalationActions (isInt : Bool) : List EscAct :=
  (if isInt then [EscAct.kill .int, EscAct.sleepSecs 2] else []) ++
  [EscAct.kill .term, EscAct.sleepSecs 2, EscAct.killK]

/-- The `ashy_slashy` loop (main.rs lines 102-139) as a fold over the signal
stream: returns the escalations dispatched (in order) and the process
exit code.  An exhausted stream exits 1; a `wait()` error exits 1; an
exit or signal-death of the worker `child` exits with its status or
`128 + signo`; any other reaped pid is logged and the loop continues. -/
def ashySlashy (child : Nat) : List SigEvent → List (List EscAct) × Nat
  | [] => ([], 1)
  | e :: rest =>
    let escHere : List (List EscAct) :=
      if e.sig = .int ∨ e.sig = .term then [escalationActions (e.sig = .int)] else []
    match e.waitResult with
    | .err => (escHere, 1)
    | .exited pid status =>
      if pid = child then (escHere, status)
      else
        let r := ashySlashy child rest
        (escHere ++ r.1, r.2)
    | .signaled pid signo =>
      if pid = child then (escHere, signo + 128)
      else
        let r := ashySlashy child rest
        (escHere ++ r.1, r.2)
    | .other =>
      let r := ashySlashy child rest
      (escHere ++ r.1, r.2)

/-! ## Specification-side definitions (for refinement comparison) -/

/-- Modelled from the spec: the jail-spawn property of §4.D / claim C1 —
the child command is chrooted to the overlay's merged tree, unshares
mount and network namespaces pre-exec, runs in its own new process
group, with null stdin and piped stdout/stderr. -/
def specJailSpawn (c : CommandSpec) (mergedTree : String) : Bool :=
  c.preExec.contains (PreExecStep.chrootTo mergedTree) &&
  c.preExec.contains PreExecStep.unshareMountNet &&
  c.processGroup == some 0 &&
  c.stdinCfg == StdioCfg.nullDev &&
  c.stdoutCfg == StdioCfg.piped &&
  c.stderrCfg == StdioCfg.piped

/-! ## Success predicate and trace of the setup phase -/

/-- All external operations of the setup phase succeed for this request:
the request reaches the spawn of main.rs line 414. -/
def setupOk (env : Env) (p : Payload) : Bool :=
  let tmp := tmpPath env
  let cwd := env.currentDirOpt.getD ""
  let check := tmp ++ "/" ++ checkSubdir p.lang_slug
  (parsedTimeout env p).isSome &&
  !(checkerRequired p.lang_slug && p.checker_text.isNone) &&
  env.createDirOk tmp &&
  env.currentDirOpt.isSome &&
  env.createDirOk check &&
  env.symlinkOk (tmp ++ "/Makefile") &&
  (match p.asserts with
   | some _ => env.writeOk (check ++ "/asserts.json")
   | none => true) &&
  (match (langMaterialize env cwd tmp check p).2 with
   | .ok => true
   | _ => false) &&
  env.writeOk (check ++ "/" ++ solutionFilename p.lang_slug)

/-- The effect trace of a fully successful setup phase. -/
def setupTrace (env : Env) (p : Payload) : List Effect :=
  let tmp := tmpPath env
  let cwd := env.currentDirOpt.getD ""
  let check := tmp ++ "/" ++ checkSubdir p.lang_slug
  [.createDir tmp, .createDir check,
   .symlink (cwd ++ "/Makefile") (tmp ++ "/Makefile")] ++
  (match p.asserts with
   | some a => [Effect.writeFile (check ++ "/asserts.json") a]
   | none => []) ++
  (langMaterialize env cwd tmp check p).1 ++
  [Effect.writeFile (check ++ "/" ++ solutionFilename p.lang_slug) p.solution_text]

/-! ## Concrete fixtures used by witnesses and counterexamples -/

/-- An environment in which every external operation succeeds and the
child exits in time with code 0, stdout `"out"`, stderr `"err"`. -/
def goodEnv : Env where
  parseDuration := fun _ => some 1000
  tmpUuid := "u"
  createDirOk := fun _ => true
  currentDirOpt := some "/srv"
  symlinkOk := fun _ => true
  writeOk := fun _ => true
  copyOk := fun _ => true
  spawnOk := true
  childExitsInTime := true
  childIdOpt := some 42
  killpgOk := true
  waitOk := true
  childExitCode := some 0
  childStdout := "out"
  childStderr := "err"
  stdoutJoinOk := true
  stdoutReadOk := true
  stdoutErrStatus := 500
  stdoutErrBody := "io"
  stderrJoinOk := true
  stderrReadOk := true
  stderrErrStatus := 500
  stderrErrBody := "io"

/-- A plain Python request with no optional fields. -/
def pyPayload : Payload where
  timeout := none
  solution_text := "sol"
  lang_slug := .Python
  asserts := none
  checker_text := none

/-- The same request tagged `ts`. -/
def tsPayload : Payload := { pyPayload with lang_slug := .Ts }

/-- A C++ request that carries no `checker_text`. -/
def cppNoChecker : Payload := { pyPayload with lang_slug := .Cpp }

/-- A successful environment whose child does not exit in time. -/
def timeoutEnv : Env := { goodEnv with childExitsInTime := false }

/-- A successful environment in which the spawn itself fails. -/
def spawnFailEnv : Env := { goodEnv with spawnOk := false }

/-- An environment in which every `fs::create_dir` fails. -/
def mkdirFailEnv : Env := { goodEnv with createDirOk := fun _ => false }

/-- A timing-out environment in which `killpg` also fails. -/
def killFailEnv : Env :=
  { goodEnv with childExitsInTime := false, killpgOk := false }

/-- The effect trace carried by a `setupPhase` result, error or not. -/
def traceOf : Except (Outcome × List Effect) (List Effect) → List Effect
  | .error (_, tr) => tr
  | .ok tr => tr

/-! ## Helper lemmas -/

theorem setupPhase_of_setupOk (env : Env) (p : Payload)
    (h : setupOk env p = true) :
    setupPhase env p = .ok (setupTrace env p) := by
  obtain ⟨pto, psol, plang, pass, pchk⟩ := p
  obtain ⟨cwd, hcwdv⟩ : ∃ c, env.currentDirOpt = some c := by
    rcases henv : env.currentDirOpt with _ | c
    · rw [setupOk] at h; simp [henv] at h
    · exact ⟨c, rfl⟩
  obtain ⟨d, hd⟩ : ∃ d,
      parsedTimeout env ⟨pto, psol, plang, pass, pchk⟩ = some d := by
    rcases ht : parsedTimeout env ⟨pto, psol, plang, pass, pchk⟩ with _ | d
    · rw [setupOk] at h; simp [ht] at h
    · exact ⟨d, rfl⟩
  rw [setupOk] at h
  simp only [hcwdv, hd, Option.getD_some, Option.isSome_some, Bool.and_eq_true,
    Bool.and_true, Bool.true_and, Bool.not_eq_true'] at h
  obtain ⟨⟨⟨⟨⟨⟨hguard, hmk⟩, hchk⟩, hln⟩, hass⟩, hmat⟩, hsol⟩ := h
  rw [setupPhase, setupTrace, hd, hcwdv]
  simp only [Option.getD_some, hguard, hmk, hchk, hln, hsol, Bool.not_true,
    Bool.false_eq_true, if_false, reduceIte]
  rcases pass with _ | a
  · rcases hm : (langMaterialize env cwd (tmpPath env)
        (tmpPath env ++ "/" ++ checkSubdir plang)
        ⟨pto, psol, plang, none, pchk⟩).2 with _ | _ | _ <;>
      simp only [hm] at hmat ⊢ <;> simp_all [List.append_assoc]
  · simp only at hass
    simp only [hass, Bool.not_true, Bool.false_eq_true, if_false, reduceIte]
    rcases hm : (langMaterialize env cwd (tmpPath env)
        (tmpPath env ++ "/" ++ checkSubdir plang)
        ⟨pto, psol, plang, some a, pchk⟩).2 with _ | _ | _ <;>
      simp only [hm] at hmat ⊢ <;> simp_all [List.append_assoc]

theorem makeSymlinks_no_spawn (env : Env) (src dst : String) (l : List String)
    (c : CommandSpec) : Effect.spawn c ∉ (makeSymlinks env src dst l).1 := by
  induction l with
  | nil => simp [makeSymlinks]
  | cons f l ih =>
    rw [makeSymlinks]
    split <;> simp_all

theorem writeChecker_no_spawn (env : Env) (path : String) (chk : Option String)
    (c : CommandSpec) : Effect.spawn c ∉ (writeChecker env path chk).1 := by
  rcases chk with _ | t <;> simp [writeChecker]

theorem langMaterialize_no_spawn (env : Env) (cwd tmp check : String)
    (p : Payload) (c : CommandSpec) :
    Effect.spawn c ∉ (langMaterialize env cwd tmp check p).1 := by
  obtain ⟨pto, psol, plang, pass, pchk⟩ := p
  cases plang <;> simp only [langMaterialize] <;> (repeat' split) <;>
    simp_all [makeSymlinks_no_spawn, writeChecker_no_spawn, List.mem_append]

theorem setupPhase_trace_no_spawn (env : Env) (p : Payload) (c : CommandSpec) :
    Effect.spawn c ∉ traceOf (setupPhase env p) := by
  unfold setupPhase
  simp only []
  (repeat' split) <;>
    simp [traceOf, List.mem_append, langMaterialize_no_spawn]

theorem langMaterialize_no_panic (env : Env) (cwd tmp check : String)
    (p : Payload)
    (h : (checkerRequired p.lang_slug && p.checker_text.isNone) = false) :
    (langMaterialize env cwd tmp check p).2 ≠ .panicked := by
  obtain ⟨pto, psol, plang, pass, pchk⟩ := p
  cases plang <;> rcases pchk with _ | t <;>
    simp_all [langMaterialize, checkerRequired, writeChecker] <;>
    (repeat' split) <;> simp_all

theorem setupPhase_error_not_ok (env : Env) (p : Payload) (o : Outcome)
    (tr : List Effect) (h : setupPhase env p = .error (o, tr)) :
    ∀ r : Response, o ≠ .ok r := by
  unfold setupPhase at h
  simp only [] at h
  (repeat' split at h) <;> (try rcases h with ⟨h1, h2⟩) <;> simp_all

theorem find?_fst_isSome (t : List (String × Lang)) (s : String) :
    ((t.find? (fun q => q.1 == s)).map Prod.snd).isSome =
      (t.map Prod.fst).contains s := by
  induction t with
  | nil => rfl
  | cons a t ih =>
    rcases h : (a.1 == s) with _ | _
    · have h' : (s == a.1) = false :=
        beq_eq_false_iff_ne.mpr fun e => beq_eq_false_iff_ne.mp h e.symm
      simp [List.find?_cons, h, List.contains_cons, h', ih]
    · have e := eq_of_beq h
      subst e
      simp [List.find?_cons, List.contains_cons]

/-! ## Claims -/

/-- C8, counterexample: the claim says the accepted tag set contains
`swift`, but the decoder rejects `"swift"` — `Lang` has no such
variant. -/
theorem claim_C8_counterexample : langOfSlug "swift" = none := by decide

/-- C8, amended: the set of accepted `lang_slug` tags is exactly the
fifteen tags `clojure, cpp, csharp, dart, elixir, golang, haskell, java,
js, kotlin, php, python, ruby, rust, ts` — `swift` is not among them —
and each accepted tag deserializes to the matching variant. -/
theorem claim_C8 :
    (∀ s : String, (langOfSlug s).isSome = (slugTable.map Prod.fst).contains s) ∧
    slugTable.map Prod.fst =
      ["clojure", "cpp", "csharp", "dart", "elixir", "golang", "haskell",
       "java", "js", "kotlin", "php", "python", "ruby", "rust", "ts"] ∧
    langOfSlug "clojure" = some .Clojure ∧ langOfSlug "cpp" = some .Cpp ∧
    langOfSlug "csharp" = some .Csharp ∧ langOfSlug "dart" = some .Dart ∧
    langOfSlug "elixir" = some .Elixir ∧ langOfSlug "golang" = some .Golang ∧
    langOfSlug "haskell" = some .Haskell ∧ langOfSlug "java" = some .Java ∧
    langOfSlug "js" = some .Js ∧ langOfSlug "kotlin" = some .Kotlin ∧
    langOfSlug "php" = some .Php ∧ langOfSlug "python" = some .Python ∧
    langOfSlug "ruby" = some .Ruby ∧ langOfSlug "rust" = some .Rust ∧
    langOfSlug "ts" = some .Ts ∧ langOfSlug "swift" = none :=
  ⟨fun s => find?_fst_isSome slugTable s, by decide⟩

/-- C3: for a request whose language is in the checker-required set and
whose `checker_text` is absent (and whose timeout field parses), the
handler returns `400 checker_text is required` with an empty effect
trace — no filesystem action has happened, in particular no jail
directory was created. -/
theorem claim_C3 (env : Env) (p : Payload)
    (hto : (parsedTimeout env p).isSome = true)
    (hreq : checkerRequired p.lang_slug = true)
    (hnone : p.checker_text = none) :
    runHandler env p = (.httpError 400 "checker_text is required", []) := by
  obtain ⟨d, hd⟩ := Option.isSome_iff_exists.mp hto
  unfold runHandler setupPhase
  rw [hd]
  simp [hreq, hnone]

/-- C3, witness at a concrete C++ request without checker. -/
theorem claim_C3_witness :
    runHandler goodEnv cppNoChecker =
      (.httpError 400 "checker_text is required", []) :=
  claim_C3 goodEnv cppNoChecker (by decide) (by decide) rfl

/-- C2: when the child does not exit within the timeout and the group
kill succeeds, the handler issues `killpg` on the child's process group
(not a plain `kill` of the single pid) and fails the request with
`408 timelimit exceeded`. -/
theorem claim_C2 (env : Env) (p : Payload) (pid : Nat)
    (hsetup : setupOk env p = true)
    (hspawn : env.spawnOk = true)
    (htime : env.childExitsInTime = false)
    (hid : env.childIdOpt = some pid)
    (hkill : env.killpgOk = true) :
    (runHandler env p).1 = .httpError 408 "timelimit exceeded" ∧
    Effect.killpg pid ∈ (runHandler env p).2 := by
  unfold runHandler
  rw [setupPhase_of_setupOk env p hsetup]
  simp [supervisePhase, hspawn, htime, hid, hkill, List.mem_append]

/-- C2, witness at a concrete timing-out request. -/
theorem claim_C2_witness :
    (runHandler timeoutEnv pyPayload).1 = .httpError 408 "timelimit exceeded" ∧
    Effect.killpg 42 ∈ (runHandler timeoutEnv pyPayload).2 :=
  claim_C2 timeoutEnv pyPayload 42 (by decide) rfl rfl rfl rfl

/-- C10: when the timeout fires and `killpg` fails, the handler calls
`std::process::exit(1)` — taking down the whole service — instead of
returning any HTTP response. -/
theorem claim_C10 (env : Env) (p : Payload) (pid : Nat)
    (hsetup : setupOk env p = true)
    (hspawn : env.spawnOk = true)
    (htime : env.childExitsInTime = false)
    (hid : env.childIdOpt = some pid)
    (hkill : env.killpgOk = false) :
    (runHandler env p).1 = .processExit 1 ∧
    ((runHandler env p).1 == Outcome.httpError 408 "timelimit exceeded") = false := by
  have h1 : (runHandler env p).1 = .processExit 1 := by
    unfold runHandler
    rw [setupPhase_of_setupOk env p hsetup]
    simp [supervisePhase, hspawn, htime, hid, hkill]
  exact ⟨h1, by rw [h1]; decide⟩

/-- C10, witness at a concrete timing-out request with a failing kill. -/
theorem claim_C10_witness :
    (runHandler killFailEnv pyPayload).1 = .processExit 1 ∧
    ((runHandler killFailEnv pyPayload).1 ==
      Outcome.httpError 408 "timelimit exceeded") = false :=
  claim_C10 killFailEnv pyPayload 42 (by decide) rfl rfl rfl rfl

/-- C6: whenever the handler completes normally (an `ok` outcome), the
response's `stdout` and `stderr` fields are exactly the child's drained
streams. -/
theorem claim_C6 (env : Env) (p : Payload) (r : Response) (tr : List Effect)
    (h : runHandler env p = (.ok r, tr)) :
    r.stdout = env.childStdout ∧ r.stderr = env.childStderr := by
  unfold runHandler at h
  rcases hs : setupPhase env p with ⟨o, tr0⟩ | tr0
  · rw [hs] at h
    simp only [Prod.mk.injEq] at h
    exact absurd h.1 (setupPhase_error_not_ok env p o tr0 hs r)
  · rw [hs] at h
    unfold supervisePhase at h
    simp only [] at h
    (repeat' split at h) <;> (try rcases h with ⟨h1, h2⟩) <;> simp_all

/-- C6, witness at a concrete successful request. -/
theorem claim_C6_witness :
    Response.stdout ⟨some 0, "out", "err"⟩ = goodEnv.childStdout ∧
    Response.stderr ⟨some 0, "out", "err"⟩ = goodEnv.childStderr :=
  claim_C6 goodEnv pyPayload ⟨some 0, "out", "err"⟩
    (runHandler goodEnv pyPayload).2 (by decide)

/-- C4, counterexample: a spawn failure makes the handler panic (the
`unwrap` at main.rs line 414); it does not surface as the
`500 internal error` response the claim demands. -/
theorem claim_C4_counterexample :
    (runHandler spawnFailEnv pyPayload).1 = Outcome.panic ∧
    ((runHandler spawnFailEnv pyPayload).1 ==
      Outcome.httpError 500 "internal error") = false := by decide

/-- C4, amended: every I/O failure during jail setup or file
materialization is surfaced as `500 internal error`, but a failure to
spawn the child panics the handler instead of producing that
response. -/
theorem claim_C4 (env : Env) (p : Payload) :
    (∀ o tr, (parsedTimeout env p).isSome = true →
      (checkerRequired p.lang_slug && p.checker_text.isNone) = false →
      setupPhase env p = .error (o, tr) →
      o = .httpError 500 "internal error") ∧
    (setupOk env p = true → env.spawnOk = false →
      (runHandler env p).1 = .panic) := by
  constructor
  · intro o tr hto hguard h
    obtain ⟨d, hd⟩ := Option.isSome_iff_exists.mp hto
    obtain ⟨pto, psol, plang, pass, pchk⟩ := p
    rcases pass with _ | a <;>
    · unfold setupPhase at h
      simp only [] at h
      (repeat' split at h) <;>
        first
          | exact Except.noConfusion h
          | (exfalso; simp_all; done)
          | (injection h with h12; exact (Prod.mk.inj h12).1.symm)
          | (injection h with h12; exfalso; rename_i heq;
             exact absurd heq (langMaterialize_no_panic _ _ _ _ _ hguard))
  · intro hsetup hspawn
    unfold runHandler
    rw [setupPhase_of_setupOk env p hsetup]
    simp [supervisePhase, hspawn]

/-- C4, witness: a failing `create_dir` yields the 500 response; a
failing spawn yields a panic. -/
theorem claim_C4_witness :
    (runHandler mkdirFailEnv pyPayload).1 = Outcome.httpError 500 "internal error" ∧
    (runHandler spawnFailEnv pyPayload).1 = Outcome.panic :=
  ⟨(claim_C4 mkdirFailEnv pyPayload).1 (runHandler mkdirFailEnv pyPayload).1
      [Effect.createDir "/tmp/u"] (by decide) (by decide) (by rfl),
   (claim_C4 spawnFailEnv pyPayload).2 (by decide) rfl⟩

/-- C1, counterexample: the spawned command carries no pre-exec steps at
all — no chroot and no namespace unsharing — so the specification's
jail-spawn property fails for it. -/
theorem claim_C1_counterexample :
    Effect.spawn (makeCommand "/tmp/u") ∈ (runHandler goodEnv pyPayload).2 ∧
    (makeCommand "/tmp/u").preExec = [] ∧
    specJailSpawn (makeCommand "/tmp/u") "/tmp/u/merged" = false := by decide

/-- C1, amended: every command the handler spawns is exactly
`make --silent -C <tmp> test` in a fresh process group with null stdin
and piped stdout/stderr, and with an empty pre-exec list: no chroot and
no namespace unsharing happen. -/
theorem claim_C1 (env : Env) (p : Payload) (c : CommandSpec)
    (hc : Effect.spawn c ∈ (runHandler env p).2) :
    c = makeCommand (tmpPath env) ∧
    c.processGroup = some 0 ∧ c.stdinCfg = .nullDev ∧ c.stdoutCfg = .piped ∧
    c.stderrCfg = .piped ∧ c.preExec = [] ∧ c.program = "make" ∧
    c.args = ["--silent", "-C", tmpPath env, "test"] := by
  have hmain : c = makeCommand (tmpPath env) := by
    unfold runHandler at hc
    rcases hs : setupPhase env p with ⟨o, tr⟩ | tr
    · have hns := setupPhase_trace_no_spawn env p c
      rw [hs] at hc hns
      simp only [traceOf] at hns
      exact absurd hc hns
    · have hns := setupPhase_trace_no_spawn env p c
      rw [hs] at hc hns
      simp only [traceOf] at hns
      unfold supervisePhase at hc
      simp only [] at hc
      (repeat' split at hc) <;> simp_all [List.mem_append]
  refine ⟨hmain, ?_, ?_, ?_, ?_, ?_, ?_, ?_⟩ <;> rw [hmain] <;> rfl

/-- C1, witness at the concrete successful request. -/
theorem claim_C1_witness :
    makeCommand "/tmp/u" = makeCommand (tmpPath goodEnv) ∧
    (makeCommand "/tmp/u").processGroup = some 0 ∧
    (makeCommand "/tmp/u").stdinCfg = .nullDev ∧
    (makeCommand "/tmp/u").stdoutCfg = .piped ∧
    (makeCommand "/tmp/u").stderrCfg = .piped ∧
    (makeCommand "/tmp/u").preExec = [] ∧
    (makeCommand "/tmp/u").program = "make" ∧
    (makeCommand "/tmp/u").args = ["--silent", "-C", tmpPath goodEnv, "test"] :=
  claim_C1 goodEnv pyPayload (makeCommand "/tmp/u") (by decide)

/-- C7, counterexample: a `ts` request is materialized under
`solution.ts`, not under the `.js` solution filename the claim
states. -/
theorem claim_C7_counterexample :
    Effect.writeFile "/tmp/u/check/solution.ts" "sol" ∈
      (runHandler goodEnv tsPayload).2 ∧
    ((runHandler goodEnv tsPayload).2.contains
      (Effect.writeFile "/tmp/u/check/solution.js" "sol")) = false := by decide

/-- C7, amended: on every successful setup the solution text is written
into the sources subdirectory (`lib` for Dart, `check` otherwise) under
the per-language solution filename, and the `ts` filename is
`solution.ts`. -/
theorem claim_C7 (env : Env) (p : Payload) (tr : List Effect)
    (h : setupPhase env p = .ok tr) :
    Effect.writeFile
        (tmpPath env ++ "/" ++ checkSubdir p.lang_slug ++ "/" ++
          solutionFilename p.lang_slug) p.solution_text ∈ tr ∧
    checkSubdir .Dart = "lib" ∧
    (∀ l, l ≠ Lang.Dart → checkSubdir l = "check") ∧
    solutionFilename .Ts = "solution.ts" := by
  refine ⟨?_, rfl, ?_, rfl⟩
  · unfold setupPhase at h
    simp only [] at h
    (repeat' split at h) <;>
      first
        | exact Except.noConfusion h
        | (rcases h with ⟨h1⟩; simp [List.mem_append])
  · intro l hl
    cases l <;> simp_all [checkSubdir]

/-- C7, witness at the concrete `ts` request. -/
theorem claim_C7_witness :
    Effect.writeFile
        (tmpPath goodEnv ++ "/" ++ checkSubdir tsPayload.lang_slug ++ "/" ++
          solutionFilename tsPayload.lang_slug) tsPayload.solution_text ∈
      setupTrace goodEnv tsPayload ∧
    checkSubdir Lang.Js = "check" :=
  ⟨(claim_C7 goodEnv tsPayload (setupTrace goodEnv tsPayload)
      (setupPhase_of_setupOk goodEnv tsPayload (by decide))).1,
   (claim_C7 goodEnv tsPayload (setupTrace goodEnv tsPayload)
      (setupPhase_of_setupOk goodEnv tsPayload (by decide))).2.2.1 Lang.Js
      (by decide)⟩

/-- C5, counterexample: the `TmpDir` the request path actually uses
performs no unmounts on drop — its only destruction effect is the
recursive delete of the base directory. -/
theorem claim_C5_counterexample :
    (mainTmpDirDrop "/tmp/cex" true).1 = [DropEffect.removeDirAll "/tmp/cex"] ∧
    ((mainTmpDirDrop "/tmp/cex" true).1.contains
      (DropEffect.umount "/tmp/cex/merged/proc")) = false ∧
    ((mainTmpDirDrop "/tmp/cex" true).1.contains
      (DropEffect.umount "/tmp/cex/merged")) = false := by decide

/-- C5, amended: dropping the per-request `TmpDir` of main.rs only
recursively deletes the base directory, logging but never propagating a
failure; only the unused overlay `TmpDir` of tmpdir.rs unmounts
`merged/proc`, then `merged`, then deletes the base directory, in that
order, each failure logged and never propagated. -/
theorem claim_C5 :
    (∀ path removeOk, mainTmpDirDrop path removeOk =
      ([DropEffect.removeDirAll path],
       if removeOk then [] else ["remove tmp dir"])) ∧
    (∀ base chroot uProcOk uOk removeOk,
      overlayTmpDirDrop base chroot uProcOk uOk removeOk =
        ([DropEffect.umount (chroot ++ "/proc"), DropEffect.umount chroot,
          DropEffect.removeDirAll base],
         (if uProcOk then [] else ["umount proc"]) ++
         (if uOk then [] else ["umount chroot overlay"]) ++
         (if removeOk then [] else ["remove tmp dir"]))) :=
  ⟨fun _ _ => rfl, fun _ _ _ _ _ => rfl⟩

/-- C9: on a SIGINT or SIGTERM the reaper dispatches the escalation
SIGINT (SIGINT case only), 2 s, SIGTERM, 2 s, SIGKILL, and it exits with
the worker's status on a normal worker exit, `signo + 128` on a signal
death, and `1` on a `wait` error or an exhausted signal stream. -/
theorem claim_C9 (child : Nat) (sig : Sig) (wr : WaitRes)
    (rest : List SigEvent) :
    ((sig = Sig.int →
        (ashySlashy child ({ sig := sig, waitResult := wr } :: rest)).1.head? =
          some [EscAct.kill .int, EscAct.sleepSecs 2, EscAct.kill .term,
                EscAct.sleepSecs 2, EscAct.killK]) ∧
     (sig = Sig.term →
        (ashySlashy child ({ sig := sig, waitResult := wr } :: rest)).1.head? =
          some [EscAct.kill .term, EscAct.sleepSecs 2, EscAct.killK])) ∧
    ((∀ s, wr = WaitRes.exited child s →
        (ashySlashy child ({ sig := sig, waitResult := wr } :: rest)).2 = s) ∧
     (∀ sg, wr = WaitRes.signaled child sg →
        (ashySlashy child ({ sig := sig, waitResult := wr } :: rest)).2 = sg + 128) ∧
     (wr = WaitRes.err →
        (ashySlashy child ({ sig := sig, waitResult := wr } :: rest)).2 = 1) ∧
     (ashySlashy child []).2 = 1) := by
  refine ⟨⟨?_, ?_⟩, ?_, ?_, ?_, rfl⟩
  · rintro rfl
    rcases wr with _ | ⟨pid, s⟩ | ⟨pid, s⟩ | _ <;>
      (rw [ashySlashy.eq_2]; dsimp only) <;> (repeat' split) <;>
      first | rfl | simp_all
  · rintro rfl
    rcases wr with _ | ⟨pid, s⟩ | ⟨pid, s⟩ | _ <;>
      (rw [ashySlashy.eq_2]; dsimp only) <;> (repeat' split) <;>
      first | rfl | simp_all
  · rintro s rfl
    rw [ashySlashy.eq_2]
    dsimp only
    split <;> simp_all
  · rintro sg rfl
    rw [ashySlashy.eq_2]
    dsimp only
    split <;> simp_all
  · rintro rfl
    rfl

/-- C9, witness at a concrete SIGINT followed by the worker's exit. -/
theorem claim_C9_witness :
    (ashySlashy 7 [{ sig := .int, waitResult := .exited 7 3 }]).1.head? =
      some [EscAct.kill .int, EscAct.sleepSecs 2, EscAct.kill .term,
            EscAct.sleepSecs 2, EscAct.killK] ∧
    (ashySlashy 7 [{ sig := .int, waitResult := .exited 7 3 }]).2 = 3 :=
  ⟨(claim_C9 7 .int (.exited 7 3) []).1.1 rfl,
   (claim_C9 7 .int (.exited 7 3) []).2.1 3 rfl⟩

end Runner
